import Mathlib

/-!
Verification of `manim_voiceover/services/elevenlabs.py`.

The module is shallowly embedded: Python exceptions become `Except`,
the remote voice-list fetch, the cache collaborator, the synthesis
endpoint and the file system are explicit parameters (an `Env` record),
and the observable effects of a call (value returned or exception
raised, remote calls issued, file written, log lines) are returned in
result records.
-/

/-- A remote voice entity, with a `name` and an opaque `voice_id`. -/
structure Voice where
  name : String
  voice_id : String
deriving DecidableEq

/-- Python truthiness of an optional string: `None` and the empty string
are falsy.  The source tests `voice_name` and `voice_id` with `if not x`
and `elif x`, so "given" throughout means "a non-empty string". -/
def truthy : Option String → Bool
  | none => false
  | some s => !(s == "")

/-- Observable outcome of the construction-time voice resolution
(`ElevenLabsService.__init__`, lines 96-128): the resolved
`self.voice_id` (`none` models Python `None`), whether
`client.voices.get_all()` was called, whether `logger.warn` ran, and
whether `logger.error` ran. -/
structure InitResult where
  voice_id : Option String
  fetched : Bool
  warned : Bool
  errorLogged : Bool
deriving DecidableEq

/-- Body of the `try` block on lines 103-106 of the source: fetch the
voice list and take `voices[0]`.  On an empty list the subscript raises
`IndexError` (message `list index out of range`), modelled as
`Except.error`; a fetch failure propagates unchanged. -/
def defaultVoiceBody (fetch : Except String (List Voice)) : Except String Voice :=
  match fetch with
  | .error e => .error e
  | .ok voices =>
    match voices with
    | [] => .error "list index out of range"
    | v :: _ => .ok v

/-- Body of the `try` block on lines 113-122 of the source: fetch the
voice list, filter it by exact name equality, use the first filtered
entry if any, otherwise warn and take `voices[0]` (which raises
`IndexError` on an empty list).  The `Bool` on either side records
whether `logger.warn` ran before the block ended, since the warning on
line 119 precedes the `voices[0]` subscript on line 122. -/
def namedVoiceBody (fetch : Except String (List Voice)) (voice_name : Option String) :
    Except (String × Bool) (String × Bool) :=
  match fetch with
  | .error e => .error (e, false)
  | .ok voices =>
    match voices.filter (fun v => some v.name == voice_name) with
    | v :: _ => .ok (v.voice_id, false)
    | [] =>
      match voices with
      | [] => .error ("list index out of range", true)
      | w :: _ => .ok (w.voice_id, true)

/-- Voice resolution performed by `ElevenLabsService.__init__`
(lines 96-128).  `fetch` is the outcome `client.voices.get_all()` would
have: a list, or a raised error.  Branch order follows the source:
neither name nor id given (lines 97-109, with an unconditional warning
on line 98), `elif voice_id` (lines 110-111), else the name branch
(lines 112-128) whose `except` handler falls back to `voice_id` when
truthy and to `None` otherwise (lines 123-128). -/
def resolveVoice (fetch : Except String (List Voice)) (voice_name voice_id : Option String) :
    InitResult :=
  if !truthy voice_name && !truthy voice_id then
    match defaultVoiceBody fetch with
    | .ok v => ⟨some v.voice_id, true, true, false⟩
    | .error _ => ⟨none, true, true, true⟩
  else if truthy voice_id then
    ⟨voice_id, false, false, false⟩
  else
    match namedVoiceBody fetch voice_name with
    | .ok (vid, w) => ⟨some vid, true, w, false⟩
    | .error (_, w) => ⟨if truthy voice_id then voice_id else none, true, w, true⟩

/-- The head of a filtered list is the first element satisfying the
predicate: the source's `[v for v in voices if v.name == voice_name][0]`
is a linear scan for the first match. -/
theorem head?_filter_eq_find? {α : Type} (p : α → Bool) (l : List α) :
    (l.filter p).head? = l.find? p := by
  induction l with
  | nil => rfl
  | cons a l ih =>
    by_cases h : p a = true
    · simp [List.filter_cons, List.find?, h]
    · simp only [Bool.not_eq_true] at h
      simp [List.filter_cons, List.find?, h, ih]

/-- Unfolding of `namedVoiceBody` on a successful fetch: the filter-then-
subscript of the source is the first name match, with the source's
fallback to `voices[0]` (and its `IndexError` on an empty list). -/
theorem namedVoiceBody_ok_eq (voices : List Voice) (nm : String) :
    namedVoiceBody (.ok voices) (some nm) =
      match voices.find? (fun v => v.name == nm) with
      | some v => .ok (v.voice_id, false)
      | none =>
        match voices with
        | [] => .error ("list index out of range", true)
        | w :: _ => .ok (w.voice_id, true) := by
  have hfil : voices.filter (fun v => some v.name == some nm)
      = voices.filter (fun v => v.name == nm) := by
    apply List.filter_congr
    intro v _
    simp
  rcases hfind : voices.find? (fun v => v.name == nm) with _ | v
  · have hh : (voices.filter (fun v => v.name == nm)).head? = none := by
      rw [head?_filter_eq_find?, hfind]
    rcases h2 : voices.filter (fun v => v.name == nm) with _ | ⟨x, xs⟩
    · simp only [namedVoiceBody]
      rw [hfil, h2, hfind]
    · rw [h2] at hh
      exact absurd hh (by simp)
  · have hh : (voices.filter (fun v => v.name == nm)).head? = some v := by
      rw [head?_filter_eq_find?, hfind]
    rcases h2 : voices.filter (fun v => v.name == nm) with _ | ⟨x, xs⟩
    · rw [h2] at hh
      exact absurd hh (by simp)
    · rw [h2] at hh
      simp only [List.head?, Option.some.injEq] at hh
      simp only [namedVoiceBody]
      rw [hfil, h2, hh, hfind]

/-- When `voice_name` is given and `voice_id` is not, `resolveVoice`
takes the branch of lines 112-128 of the source. -/
theorem resolveVoice_named (fetch : Except String (List Voice)) (nm : String)
    (vid : Option String) (hnm : nm ≠ "") (hvid : truthy vid = false) :
    resolveVoice fetch (some nm) vid =
      match namedVoiceBody fetch (some nm) with
      | .ok (v, w) => ⟨some v, true, w, false⟩
      | .error (_, w) => ⟨none, true, w, true⟩ := by
  have htr : truthy (some nm) = true := by
    simp [truthy, hnm]
  rcases hb : namedVoiceBody fetch (some nm) with ⟨e, w⟩ | ⟨v, w⟩ <;>
    simp [resolveVoice, htr, hvid, hb]

/-- Claim C1: at construction, if `voice_id` is not given but
`voice_name` is given, the voice list is fetched and linearly scanned
for the first voice whose name equals `voice_name` exactly; if a match
exists its `voice_id` becomes the resolved id, and if no match exists in
a non-empty fetched list the resolved id is the first entry's `voice_id`
and a warning is reported. -/
theorem C1_voice_name_resolution (voices : List Voice) (nm : String) (vid : Option String)
    (hnm : nm ≠ "") (hvid : truthy vid = false) :
    (resolveVoice (.ok voices) (some nm) vid).fetched = true ∧
    (∀ v, voices.find? (fun w => w.name == nm) = some v →
      (resolveVoice (.ok voices) (some nm) vid).voice_id = some v.voice_id) ∧
    (voices.find? (fun w => w.name == nm) = none → ∀ w ws, voices = w :: ws →
      (resolveVoice (.ok voices) (some nm) vid).voice_id = some w.voice_id ∧
      (resolveVoice (.ok voices) (some nm) vid).warned = true) := by
  have hres := resolveVoice_named (.ok voices) nm vid hnm hvid
  rw [namedVoiceBody_ok_eq] at hres
  refine ⟨?_, ?_, ?_⟩
  · rcases hfind : voices.find? (fun v => v.name == nm) with _ | v <;> rw [hfind] at hres
    · rcases voices with _ | ⟨w, ws⟩ <;> simp [hres]
    · simp [hres]
  · intro v hv
    rw [hv] at hres
    simp [hres]
  · intro hnone w ws hcons
    subst hcons
    rw [hnone] at hres
    simp [hres]

/-- Witness for C1 at a concrete voice list: the name "B" is matched at
the second entry, the name "Z" is unmatched so the first entry wins. -/
theorem C1_voice_name_resolution_witness :
    ((resolveVoice (.ok [⟨"A", "id0"⟩, ⟨"B", "id1"⟩]) (some "B") none).fetched = true ∧
    (∀ v, [(⟨"A", "id0"⟩ : Voice), ⟨"B", "id1"⟩].find? (fun w => w.name == "B") = some v →
      (resolveVoice (.ok [⟨"A", "id0"⟩, ⟨"B", "id1"⟩]) (some "B") none).voice_id = some v.voice_id) ∧
    ([(⟨"A", "id0"⟩ : Voice), ⟨"B", "id1"⟩].find? (fun w => w.name == "B") = none →
      ∀ w ws, [(⟨"A", "id0"⟩ : Voice), ⟨"B", "id1"⟩] = w :: ws →
      (resolveVoice (.ok [⟨"A", "id0"⟩, ⟨"B", "id1"⟩]) (some "B") none).voice_id = some w.voice_id ∧
      (resolveVoice (.ok [⟨"A", "id0"⟩, ⟨"B", "id1"⟩]) (some "B") none).warned = true)) ∧
    (resolveVoice (.ok [⟨"A", "id0"⟩, ⟨"B", "id1"⟩]) (some "Z") none).voice_id = some "id0" := by
  constructor
  · exact C1_voice_name_resolution [⟨"A", "id0"⟩, ⟨"B", "id1"⟩] "B" none (by decide) (by decide)
  · decide

/-- Claim C2: for every constructor call in which `voice_id` is given
(also when `voice_name` is given), the resolved voice id is exactly the
supplied `voice_id` and no remote voice-list fetch is performed. -/
theorem C2_voice_id_direct (fetch : Except String (List Voice)) (nm vid : Option String)
    (h : truthy vid = true) :
    (resolveVoice fetch nm vid).voice_id = vid ∧
    (resolveVoice fetch nm vid).fetched = false := by
  constructor <;> simp [resolveVoice, h]

/-- Witness for C2: a concrete id is used verbatim with no fetch, even
alongside a `voice_name` and a fetch that would fail. -/
theorem C2_voice_id_direct_witness :
    (resolveVoice (.error "down") (some "A") (some "id9")).voice_id = some "id9" ∧
    (resolveVoice (.error "down") (some "A") (some "id9")).fetched = false :=
  C2_voice_id_direct (.error "down") (some "A") (some "id9") (by decide)

/-- Counterexample to claim C3 as stated.  The claim says an empty
fetched voice list makes the "use first entry" fallback paths crash
construction with an out-of-bounds access.  In the source the
`voices[0]` subscript sits inside the same `try` block as the fetch, so
the `IndexError` it raises is caught by `except Exception` (lines
107-109 and 123-128): on the concrete input of an empty fetched list,
resolution completes in both fallback paths, with `voice_id = None` and
the error logged, rather than propagating the out-of-bounds error. -/
theorem C3_counterexample :
    resolveVoice (.ok []) none none = ⟨none, true, true, true⟩ ∧
    resolveVoice (.ok []) (some "Rachel") none = ⟨none, true, true, true⟩ := by
  constructor <;> rfl

/-- Claim C3 amended: if the remote voice list fetched during
construction is empty, the "use first entry" fallback paths (neither
`voice_name` nor `voice_id` given, or `voice_name` given but unmatched)
do raise an out-of-bounds index access, but it is caught by the
surrounding `except Exception` handler, so construction completes with
the resolved id `None` and the error logged. -/
theorem C3_empty_list_caught (nm : String) (hnm : nm ≠ "") :
    defaultVoiceBody (.ok []) = .error "list index out of range" ∧
    namedVoiceBody (.ok []) (some nm) = .error ("list index out of range", true) ∧
    resolveVoice (.ok []) none none = ⟨none, true, true, true⟩ ∧
    resolveVoice (.ok []) (some nm) none = ⟨none, true, true, true⟩ := by
  refine ⟨rfl, rfl, rfl, ?_⟩
  rw [resolveVoice_named (.ok []) nm none hnm rfl]
  rfl

/-- Witness for C3 amended at the unmatched name "Rachel". -/
theorem C3_empty_list_caught_witness :
    defaultVoiceBody (.ok []) = .error "list index out of range" ∧
    namedVoiceBody (.ok []) (some "Rachel") = .error ("list index out of range", true) ∧
    resolveVoice (.ok []) none none = ⟨none, true, true, true⟩ ∧
    resolveVoice (.ok []) (some "Rachel") none = ⟨none, true, true, true⟩ :=
  C3_empty_list_caught "Rachel" (by decide)

/-- Claim C4: every error raised while fetching the voice list during
construction (in either branch that fetches; those branches run exactly
when `voice_id` is not given) is caught and logged, construction
completes without aborting — `resolveVoice` is total and returns a
result — and the resolved voice id degrades to `None`, no fallback id
existing in either branch. -/
theorem C4_fetch_error_degrades (e : String) (nm vid : Option String)
    (hvid : truthy vid = false) :
    (resolveVoice (.error e) nm vid).voice_id = none ∧
    (resolveVoice (.error e) nm vid).errorLogged = true ∧
    (resolveVoice (.error e) nm vid).fetched = true := by
  by_cases hnm : truthy nm = true
  · refine ⟨?_, ?_, ?_⟩ <;>
      simp [resolveVoice, hnm, hvid, namedVoiceBody, defaultVoiceBody]
  · simp only [Bool.not_eq_true] at hnm
    refine ⟨?_, ?_, ?_⟩ <;>
      simp [resolveVoice, hnm, hvid, namedVoiceBody, defaultVoiceBody]

/-- Witness for C4: a concrete fetch failure with a given name and no
given id completes with `voice_id = None` and the error logged. -/
theorem C4_fetch_error_degrades_witness :
    (resolveVoice (.error "network down") (some "Rachel") none).voice_id = none ∧
    (resolveVoice (.error "network down") (some "Rachel") none).errorLogged = true ∧
    (resolveVoice (.error "network down") (some "Rachel") none).fetched = true :=
  C4_fetch_error_degrades "network down" (some "Rachel") none rfl

/-- The nested `config` object of the cache fingerprint (lines 146-149). -/
structure SynthConfig where
  model : String
  voice_id : Option String
deriving DecidableEq

/-- The `input_data` dict built on lines 143-150, used as the cache
fingerprint: bookmark-stripped text, the literal service tag, and a
config holding only `model` and `voice_id`. -/
structure InputData where
  input_text : String
  service : String
  config : SynthConfig
deriving DecidableEq

/-- The dict returned by `generate_from_text` (lines 184-188), also the
shape of a cached result. -/
structure SynthDict where
  input_text : String
  input_data : InputData
  original_audio : String
deriving DecidableEq

/-- The service configuration stored on `self` at construction and read
by `generate_from_text`: `self.model`, `self.voice_id`,
`self.voice_settings` (a dict, modelled as an optional association
list), `self.output_format`. -/
structure ServiceConfig where
  model : String
  voice_id : Option String
  voice_settings : Option (List (String × String))
  output_format : String
deriving DecidableEq

/-- The argument tuple passed to `client.text_to_speech.convert`
(lines 165-171). -/
structure ConvertCall where
  text : String
  voice_id : Option String
  model_id : String
  output_format : String
  voice_settings : Option (List (String × String))
deriving DecidableEq

/-- External collaborators of `generate_from_text`:
`remove_bookmarks` (helper), `get_cached_result` and
`get_audio_basename` (SpeechService base class), the remote `convert`
endpoint (returning the chunk sequence it would yield, or the error it
would raise; a chunk is a list of bytes), the file system `write`
(success, or the error an `open`/`write` would raise, per target path),
and `self.cache_dir` used when the `cache_dir` argument is `None`. -/
structure Env where
  remove_bookmarks : String → String
  get_cached_result : InputData → Option SynthDict
  get_audio_basename : InputData → String
  convert : ConvertCall → Except String (List (List Nat))
  write : String → Except String Unit
  self_cache_dir : String

/-- Observable outcome of one `generate_from_text` call: the returned
dict or the raised exception message, the convert call issued (if any),
the file write that completed (absolute path and the byte content the
file holds afterwards — `open(..., "wb")` truncates, so this is the
whole file), and the `logger.error` line if one was emitted. -/
structure GenResult where
  result : Except String SynthDict
  convertCalled : Option ConvertCall
  fileWritten : Option (String × List Nat)
  errorLogged : Option String

/-- Lines 139-140: the `cache_dir` argument, defaulted to
`self.cache_dir` when `None`. -/
def resolvedCacheDir (env : Env) (cache_dir : Option String) : String :=
  match cache_dir with
  | none => env.self_cache_dir
  | some d => d

/-- Lines 142-150: the fingerprint `input_data`, built from the
bookmark-stripped text, the literal service name, and only `model` and
`voice_id` of the configuration. -/
def fingerprint (env : Env) (cfg : ServiceConfig) (text : String) : InputData :=
  ⟨env.remove_bookmarks text, "elevenlabs", ⟨cfg.model, cfg.voice_id⟩⟩

/-- Lines 158-161: destination filename — the caller-supplied `path`,
else the fingerprint-derived basename with `.mp3` appended. -/
def audioPath (env : Env) (cfg : ServiceConfig) (text : String) (path : Option String) :
    String :=
  match path with
  | none => env.get_audio_basename (fingerprint env cfg text) ++ ".mp3"
  | some p => p

/-- Lines 165-171: the exact arguments handed to the convert endpoint —
stripped text, `self.voice_id`, `self.model`, `self.output_format`,
`self.voice_settings`. -/
def convertArgs (env : Env) (cfg : ServiceConfig) (text : String) : ConvertCall :=
  ⟨env.remove_bookmarks text, cfg.voice_id, cfg.model, cfg.output_format, cfg.voice_settings⟩

/-- `ElevenLabsService.generate_from_text` (lines 132-190).  Cache hit
returns the cached dict at once (lines 153-156).  On a miss, the convert
endpoint is called (lines 163-171), its chunks are concatenated in order
(line 174) and written to `Path(cache_dir) / audio_path` (lines
177-178); any exception from the call or the write is caught, logged,
and re-raised as the fixed message of line 182.  On success the dict of
lines 184-188 is returned, with the original unstripped `text`. -/
def generate_from_text (env : Env) (cfg : ServiceConfig) (text : String)
    (cache_dir path : Option String) : GenResult :=
  match env.get_cached_result (fingerprint env cfg text) with
  | some cached => ⟨.ok cached, none, none, none⟩
  | none =>
    match env.convert (convertArgs env cfg text) with
    | .error e =>
      ⟨.error "Failed to generate speech with ElevenLabs.", some (convertArgs env cfg text),
        none, some ("Error using ElevenLabs API: " ++ e)⟩
    | .ok chunks =>
      match env.write (resolvedCacheDir env cache_dir ++ "/" ++ audioPath env cfg text path) with
      | .error e =>
        ⟨.error "Failed to generate speech with ElevenLabs.", some (convertArgs env cfg text),
          none, some ("Error using ElevenLabs API: " ++ e)⟩
      | .ok _ =>
        ⟨.ok ⟨text, fingerprint env cfg text, audioPath env cfg text path⟩,
          some (convertArgs env cfg text),
          some (resolvedCacheDir env cache_dir ++ "/" ++ audioPath env cfg text path,
            chunks.flatten), none⟩

/-- Claim C5: for every text and every two service configurations
agreeing on `model` and `voice_id` but differing only in
`voice_settings` and/or `output_format`, `generate_from_text` builds the
same fingerprint — the bookmark-stripped text, the service tag
`"elevenlabs"`, and a config of `model` and `voice_id` only — hence a
cache hit for one configuration is a cache hit for the other. -/
theorem C5_fingerprint_excludes_settings (env : Env) (cfg1 cfg2 : ServiceConfig)
    (text : String) (cache_dir path : Option String) (c : SynthDict)
    (hm : cfg1.model = cfg2.model) (hv : cfg1.voice_id = cfg2.voice_id)
    (hc : env.get_cached_result (fingerprint env cfg1 text) = some c) :
    fingerprint env cfg1 text =
      ⟨env.remove_bookmarks text, "elevenlabs", ⟨cfg1.model, cfg1.voice_id⟩⟩ ∧
    fingerprint env cfg2 text = fingerprint env cfg1 text ∧
    (generate_from_text env cfg1 text cache_dir path).result = .ok c ∧
    (generate_from_text env cfg2 text cache_dir path).result = .ok c := by
  have hfp : fingerprint env cfg2 text = fingerprint env cfg1 text := by
    simp [fingerprint, hm, hv]
  refine ⟨rfl, hfp, ?_, ?_⟩
  · simp [generate_from_text, hc]
  · simp [generate_from_text, hfp, hc]

/-- Claim C6: a call whose fingerprint is in the cache returns the
cached record immediately: no convert call is issued, no file is
written, nothing is logged. -/
theorem C6_cache_hit_no_effects (env : Env) (cfg : ServiceConfig) (text : String)
    (cache_dir path : Option String) (c : SynthDict)
    (hc : env.get_cached_result (fingerprint env cfg text) = some c) :
    generate_from_text env cfg text cache_dir path = ⟨.ok c, none, none, none⟩ := by
  simp [generate_from_text, hc]

/-- Claim C7: on a cache miss with successful remote synthesis, the
endpoint is called with the stripped text, the resolved voice id, the
model, the output format and the voice settings, and the file at
`<cache_dir>/<audio_path>` ends up holding exactly the in-order
concatenation of the chunks the endpoint yielded (the `"wb"` open
truncates, so any previous content is gone). -/
theorem C7_miss_success (env : Env) (cfg : ServiceConfig) (text : String)
    (cache_dir path : Option String) (chunks : List (List Nat))
    (hmiss : env.get_cached_result (fingerprint env cfg text) = none)
    (hconv : env.convert (convertArgs env cfg text) = .ok chunks)
    (hwrite : env.write
      (resolvedCacheDir env cache_dir ++ "/" ++ audioPath env cfg text path) = .ok ()) :
    convertArgs env cfg text =
      ⟨env.remove_bookmarks text, cfg.voice_id, cfg.model,
        cfg.output_format, cfg.voice_settings⟩ ∧
    (generate_from_text env cfg text cache_dir path).convertCalled =
      some (convertArgs env cfg text) ∧
    (generate_from_text env cfg text cache_dir path).fileWritten =
      some (resolvedCacheDir env cache_dir ++ "/" ++ audioPath env cfg text path,
        chunks.flatten) := by
  refine ⟨rfl, ?_, ?_⟩ <;> simp [generate_from_text, hmiss, hconv, hwrite]

/-- Claim C8: on a successful cache miss the returned record is the
original unstripped `text`, the fingerprint as `input_data`, and
`audio_path` as `original_audio`, where `audio_path` is the
caller-supplied `path` when given and otherwise the fingerprint-derived
basename with `.mp3` appended. -/
theorem C8_return_record (env : Env) (cfg : ServiceConfig) (text : String)
    (cache_dir path : Option String) (chunks : List (List Nat))
    (hmiss : env.get_cached_result (fingerprint env cfg text) = none)
    (hconv : env.convert (convertArgs env cfg text) = .ok chunks)
    (hwrite : env.write
      (resolvedCacheDir env cache_dir ++ "/" ++ audioPath env cfg text path) = .ok ()) :
    (generate_from_text env cfg text cache_dir path).result =
      .ok ⟨text, fingerprint env cfg text, audioPath env cfg text path⟩ ∧
    audioPath env cfg text path =
      path.getD (env.get_audio_basename (fingerprint env cfg text) ++ ".mp3") := by
  constructor
  · simp [generate_from_text, hmiss, hconv, hwrite]
  · cases path <;> rfl

/-- Claim C9: every failure raised during the remote synthesis call or
the file write is caught, the underlying cause is logged, and the
exception re-raised carries the one fixed message of line 182 of the
source, identical for a network, disk, or quota failure; no completed
file write is recorded. -/
theorem C9_errors_opaque (env : Env) (cfg : ServiceConfig) (text : String)
    (cache_dir path : Option String) (e : String)
    (hmiss : env.get_cached_result (fingerprint env cfg text) = none)
    (hfail : env.convert (convertArgs env cfg text) = .error e ∨
      ∃ chunks, env.convert (convertArgs env cfg text) = .ok chunks ∧
        env.write
          (resolvedCacheDir env cache_dir ++ "/" ++ audioPath env cfg text path) = .error e) :
    (generate_from_text env cfg text cache_dir path).result =
      .error "Failed to generate speech with ElevenLabs." ∧
    (generate_from_text env cfg text cache_dir path).errorLogged =
      some ("Error using ElevenLabs API: " ++ e) ∧
    (generate_from_text env cfg text cache_dir path).fileWritten = none := by
  rcases hfail with hconv | ⟨chunks, hconv, hwrite⟩
  · refine ⟨?_, ?_, ?_⟩ <;> simp [generate_from_text, hmiss, hconv]
  · refine ⟨?_, ?_, ?_⟩ <;> simp [generate_from_text, hmiss, hconv, hwrite]

/-- Claim C10: on a cache hit the caller-supplied `path` argument is
ignored entirely — the call behaves exactly as with `path = None`, the
returned record is the cached one (so `original_audio` is the cached
path, not the supplied one), and nothing is written anywhere. -/
theorem C10_hit_ignores_path (env : Env) (cfg : ServiceConfig) (text : String)
    (cache_dir path : Option String) (c : SynthDict)
    (hc : env.get_cached_result (fingerprint env cfg text) = some c) :
    generate_from_text env cfg text cache_dir path =
      generate_from_text env cfg text cache_dir none ∧
    (generate_from_text env cfg text cache_dir path).result = .ok c ∧
    (generate_from_text env cfg text cache_dir path).fileWritten = none := by
  refine ⟨?_, ?_, ?_⟩ <;> simp [generate_from_text, hc]

/-- A concrete cached record used by witnesses. -/
def sampleDict : SynthDict :=
  ⟨"hello", ⟨"hello", "elevenlabs", ⟨"eleven_multilingual_v2", some "V1"⟩⟩, "cached.mp3"⟩

/-- A concrete environment whose cache always hits with `sampleDict`. -/
def envHit : Env :=
  ⟨fun s => s, fun _ => some sampleDict, fun _ => "base", fun _ => .ok [[1, 2], [3]],
    fun _ => .ok (), "cd"⟩

/-- A concrete environment with an empty cache, a two-chunk endpoint
response, and a succeeding file write. -/
def envMiss : Env :=
  ⟨fun s => s, fun _ => none, fun _ => "base", fun _ => .ok [[1, 2], [3]],
    fun _ => .ok (), "cd"⟩

/-- A concrete environment with an empty cache and an endpoint that
raises. -/
def envFail : Env :=
  ⟨fun s => s, fun _ => none, fun _ => "base", fun _ => .error "quota exceeded",
    fun _ => .ok (), "cd"⟩

/-- A configuration with default-like settings. -/
def cfgA : ServiceConfig :=
  ⟨"eleven_multilingual_v2", some "V1", none, "mp3_44100_128"⟩

/-- `cfgA` with different voice settings and output format only. -/
def cfgB : ServiceConfig :=
  ⟨"eleven_multilingual_v2", some "V1", some [("stability", "high")], "pcm_16000"⟩

/-- Witness for C5: `cfgA` and `cfgB` differ only in settings and output
format, build the same fingerprint, and both hit the cache. -/
theorem C5_fingerprint_excludes_settings_witness :
    fingerprint envHit cfgA "hello" =
      ⟨envHit.remove_bookmarks "hello", "elevenlabs", ⟨cfgA.model, cfgA.voice_id⟩⟩ ∧
    fingerprint envHit cfgB "hello" = fingerprint envHit cfgA "hello" ∧
    (generate_from_text envHit cfgA "hello" none none).result = .ok sampleDict ∧
    (generate_from_text envHit cfgB "hello" none none).result = .ok sampleDict :=
  C5_fingerprint_excludes_settings envHit cfgA cfgB "hello" none none sampleDict rfl rfl rfl

/-- Witness for C6 at a concrete hit, with a caller-supplied path. -/
theorem C6_cache_hit_no_effects_witness :
    generate_from_text envHit cfgA "hello" none (some "elsewhere.mp3") =
      ⟨.ok sampleDict, none, none, none⟩ :=
  C6_cache_hit_no_effects envHit cfgA "hello" none (some "elsewhere.mp3") sampleDict rfl

/-- Witness for C7 at a concrete miss with chunks `[1,2]` and `[3]`. -/
theorem C7_miss_success_witness :
    convertArgs envMiss cfgA "hello" =
      ⟨envMiss.remove_bookmarks "hello", cfgA.voice_id, cfgA.model,
        cfgA.output_format, cfgA.voice_settings⟩ ∧
    (generate_from_text envMiss cfgA "hello" none none).convertCalled =
      some (convertArgs envMiss cfgA "hello") ∧
    (generate_from_text envMiss cfgA "hello" none none).fileWritten =
      some (resolvedCacheDir envMiss none ++ "/" ++ audioPath envMiss cfgA "hello" none,
        [[1, 2], [3]].flatten) :=
  C7_miss_success envMiss cfgA "hello" none none [[1, 2], [3]] rfl rfl rfl

/-- Witness for C8 at a concrete miss with no caller-supplied path. -/
theorem C8_return_record_witness :
    (generate_from_text envMiss cfgA "hello" none none).result =
      .ok ⟨"hello", fingerprint envMiss cfgA "hello", audioPath envMiss cfgA "hello" none⟩ ∧
    audioPath envMiss cfgA "hello" none =
      Option.getD none (envMiss.get_audio_basename (fingerprint envMiss cfgA "hello") ++ ".mp3") :=
  C8_return_record envMiss cfgA "hello" none none [[1, 2], [3]] rfl rfl rfl

/-- Witness for C9 at a concrete endpoint failure. -/
theorem C9_errors_opaque_witness :
    (generate_from_text envFail cfgA "hello" none none).result =
      .error "Failed to generate speech with ElevenLabs." ∧
    (generate_from_text envFail cfgA "hello" none none).errorLogged =
      some ("Error using ElevenLabs API: " ++ "quota exceeded") ∧
    (generate_from_text envFail cfgA "hello" none none).fileWritten = none :=
  C9_errors_opaque envFail cfgA "hello" none none "quota exceeded" rfl (Or.inl rfl)

/-- Witness for C10 at a concrete hit and a concrete supplied path. -/
theorem C10_hit_ignores_path_witness :
    generate_from_text envHit cfgA "hi" none (some "pick.mp3") =
      generate_from_text envHit cfgA "hi" none none ∧
    (generate_from_text envHit cfgA "hi" none (some "pick.mp3")).result = .ok sampleDict ∧
    (generate_from_text envHit cfgA "hi" none (some "pick.mp3")).fileWritten = none :=
  C10_hit_ignores_path envHit cfgA "hi" none (some "pick.mp3") sampleDict rfl
